import Mathlib

/-!
Verification of load_bearer.c (a minimal libevent HTTP server) against its
natural-language specification.  The C source is shallowly embedded below:

* `requested_delay` embeds the query-parameter loop of `requested_delay`
  (src/load_bearer.c lines 140-152); the output of the libevent call
  `evhttp_parse_query` is abstracted as the request's list of decoded
  (key, value) pairs in query order, which is exactly what the TAILQ
  iteration visits.
* `atoi` embeds the C library `atoi`: skip leading whitespace, optional
  sign, longest digit run; no digits gives 0.
* `strncmpEqZero` embeds `strncmp(a, b, n) == 0` on NUL-terminated strings.
* `wrap32` makes 32-bit signed `int` arithmetic explicit: C `int`
  multiplication wraps modulo 2^32 into [-2^31, 2^31).
* The handlers are embedded as trace-producing functions over an event
  alphabet `Ev`; an allocation oracle `Alloc` says whether `evbuffer_new`
  and the `malloc` inside `http_response_new` succeed, and the blocking
  handler additionally takes the return value of `usleep`.
-/

/-- 32-bit signed wraparound: the value a C `int` holds after an
arithmetic operation whose mathematical result is `x`. -/
def wrap32 (x : Int) : Int := (x + 2147483648) % 4294967296 - 2147483648

/-- ASCII decimal digit test, as `isdigit` on the default locale. -/
def isDigitC (c : Char) : Bool := '0' ≤ c && c ≤ '9'

/-- ASCII whitespace test, as `isspace` on the default locale. -/
def isSpaceC (c : Char) : Bool :=
  c == ' ' || c == '\t' || c == '\n' || c == '\r' || c == '\x0b' || c == '\x0c'

/-- Numeric value of a decimal digit character. -/
def digitVal (c : Char) : Nat := c.toNat - '0'.toNat

/-- Accumulate the value of the longest leading digit run, as the digit
loop of `atoi`/`strtol` does. -/
def digitsLoop : List Char → Nat → Nat
  | [], acc => acc
  | c :: cs, acc => if isDigitC c then digitsLoop cs (acc * 10 + digitVal c) else acc

/-- The sign-and-digits part of `atoi`, applied after whitespace was
skipped. -/
def atoiAfterSpace : List Char → Int
  | [] => 0
  | c :: cs =>
    if c == '-' then -(digitsLoop cs 0 : Int)
    else if c == '+' then (digitsLoop cs 0 : Int)
    else (digitsLoop (c :: cs) 0 : Int)

/-- C `atoi`: leading whitespace, optional single sign, longest decimal
digit run; 0 when no digits follow. -/
def atoi (s : String) : Int := atoiAfterSpace (s.data.dropWhile isSpaceC)

/-- Embeds `strncmp(a, b, n) == 0` for NUL-terminated C strings `a`, `b`:
the first `n` characters agree, where running off the end of both strings
simultaneously also counts as agreement and running off the end of only
one does not (the NUL differs from any character). -/
def strncmpEqZero : List Char → List Char → Nat → Bool
  | _, _, 0 => true
  | [], [], _ + 1 => true
  | [], _ :: _, _ + 1 => false
  | _ :: _, [], _ + 1 => false
  | a :: as, b :: bs, n + 1 => a == b && strncmpEqZero as bs n

/-- The characters of the literal "delay" compared against by
`requested_delay` (line 147). -/
def delayKeyChars : List Char := ['d', 'e', 'l', 'a', 'y']

/-- The key test on line 147 of the source:
`strncmp(param->key, "delay", 5) == 0`. -/
def delayKeyMatch (k : String) : Bool := strncmpEqZero k.data delayKeyChars 5

/-- The TAILQ_FOREACH loop of `requested_delay` (lines 146-150): `wait`
starts at 0 and is overwritten with `atoi(param->value)` at every
parameter whose key passes the line-147 test. -/
def requested_delay_go (wait : Int) : List (String × String) → Int
  | [] => wait
  | p :: ps => requested_delay_go (if delayKeyMatch p.1 then atoi p.2 else wait) ps

/-- `requested_delay` (src/load_bearer.c lines 140-152) on the parsed
parameter list of the request's query string. -/
def requested_delay (params : List (String × String)) : Int :=
  requested_delay_go 0 params

/-- Decimal digit character for a value below ten, as printf produces. -/
def digitChar (n : Nat) : Char :=
  match n with
  | 0 => '0' | 1 => '1' | 2 => '2' | 3 => '3' | 4 => '4'
  | 5 => '5' | 6 => '6' | 7 => '7' | 8 => '8' | _ => '9'

/-- Structural worker for the decimal printer: `fuel` bounds the number
of divisions by ten and any `fuel ≥ n` is enough. -/
def natDecAux : Nat → Nat → List Char
  | 0, n => [digitChar n]
  | fuel + 1, n =>
    if n < 10 then [digitChar n]
    else natDecAux fuel (n / 10) ++ [digitChar (n % 10)]

/-- Decimal digit string of a natural number, most significant digit
first, no leading zeros (printf `%u` on the magnitude). -/
def natDecL (n : Nat) : List Char := natDecAux n n

/-- printf `%d`: minus sign for negatives, then the decimal digits of the
magnitude. -/
def intToDec (i : Int) : String :=
  if i < 0 then String.mk ('-' :: natDecL i.natAbs) else String.mk (natDecL i.toNat)

/-- The body built by `evbuffer_add_printf(buf, "Waited %d ms", wait)` on
lines 171 and 196. -/
def waitedBody (wait : Int) : String := "Waited " ++ intToDec wait ++ " ms"

/-- The struct `http_response` (lines 60-63): the pending request handle
and the prepared body buffer, either of which may be NULL (`none`).
A request handle is abstracted as a number, a buffer by its contents. -/
structure http_response where
  req : Option Nat
  buf : Option String
deriving DecidableEq, Repr

/-- An incoming request as the evhttp layer presents it to a handler:
its method, the parsed query parameters in query order, and its one-shot
completion handle.  Handlers are registered per path by `main`, so the
path is fixed per handler and not repeated here. -/
structure Request where
  method : String
  query : List (String × String)
  handle : Nat
deriving DecidableEq, Repr

/-- Allocation oracle: whether `evbuffer_new` returns a buffer and
whether the `malloc` inside `http_response_new` returns memory. -/
structure Alloc where
  bufOk : Bool
  holderOk : Bool
deriving DecidableEq, Repr

/-- Observable events of a handler run. -/
inductive Ev where
  /-- `evhttp_send_reply(req, status, reason, buf)` -/
  | sendReply (req : Option Nat) (status : Nat) (buf : Option String)
  /-- `evbuffer_free` -/
  | evbufferFree
  /-- `evhttp_request_free` -/
  | evhttpRequestFree
  /-- `free` of the `http_response` struct itself -/
  | holderFree
  /-- `event_once(-1, EV_TIMEOUT, send_response_cb, resp, &delay)` with
  the given timeval fields -/
  | armTimer (tvSec : Int) (tvUsec : Int)
  /-- `usleep` with the given (already wrapped to `int`) argument -/
  | usleepCall (usec : Int)
  /-- a failed `assert`: the process aborts here, nothing later runs -/
  | assertFail
deriving DecidableEq, Repr

/-- `http_response_new` (lines 75-82): `malloc` then `assert(resp)`;
`none` means the assert fired and the process aborted. -/
def http_response_new (ok : Bool) (req : Option Nat) (buf : Option String) :
    Option http_response :=
  if ok then some ⟨req, buf⟩ else none

/-- `http_response_free` (lines 91-100): free the request if non-NULL,
free the buffer if non-NULL, free the struct. -/
def http_response_free (ptr : http_response) : List Ev :=
  (if ptr.req.isSome then [Ev.evhttpRequestFree] else []) ++
    (if ptr.buf.isSome then [Ev.evbufferFree] else []) ++ [Ev.holderFree]

/-- `send_response_cb` (lines 117-125): send the reply with status 200,
set `resp->req` to NULL because `evhttp_send_reply` already freed the
request, then `http_response_free` the holder. -/
def send_response_cb (resp : http_response) : List Ev :=
  Ev.sendReply resp.req 200 resp.buf :: http_response_free ⟨none, resp.buf⟩

/-- `null_response_cb` (lines 46-53): build an "OK" buffer, send it with
status 200, free the buffer.  The request's method and query are never
read. -/
def null_response_cb (a : Alloc) (r : Request) : List Ev :=
  let buf : Option String := if a.bufOk then some "OK" else none
  [Ev.sendReply (some r.handle) 200 buf, Ev.evbufferFree]

/-- Result of running `delayed_response_cb`: the events of the handler
body itself, and the holder handed to `event_once` for later delivery
(`none` when the handler aborted before reaching `event_once`). -/
structure DelayedOut where
  trace : List Ev
  scheduled : Option http_response
deriving DecidableEq, Repr

/-- `delayed_response_cb` (lines 164-177): parse the delay, fill the
timeval with tv_sec = 0 and tv_usec = 1000 * wait (a C `int` product,
hence `wrap32`), build the "Waited %d ms" buffer, make the holder
(asserting the malloc), and schedule `send_response_cb` once. -/
def delayed_response_cb (a : Alloc) (r : Request) : DelayedOut :=
  let wait := requested_delay r.query
  let tv_sec : Int := 0
  let tv_usec : Int := wrap32 (1000 * wait)
  let buf : Option String := if a.bufOk then some (waitedBody wait) else none
  match http_response_new a.holderOk (some r.handle) buf with
  | some resp => ⟨[Ev.armTimer tv_sec tv_usec], some resp⟩
  | none => ⟨[Ev.assertFail], none⟩

/-- Full lifecycle of a request to /delay: the handler body followed by
the one firing of the scheduled one-shot timer callback, or just the
handler body when it aborted. -/
def delayed_lifecycle (a : Alloc) (r : Request) : List Ev :=
  match delayed_response_cb a r with
  | ⟨tr, some resp⟩ => tr ++ send_response_cb resp
  | ⟨tr, none⟩ => tr

/-- `blocking_response_cb` (lines 192-204): parse the delay, build the
buffer, make the holder (asserting the malloc), call
`usleep(wait * 1000)` and assert it returned 0, then deliver via
`send_response_cb`.  `sleepRet` is the value `usleep` returned. -/
def blocking_response_cb (a : Alloc) (sleepRet : Int) (r : Request) : List Ev :=
  let wait := requested_delay r.query
  let buf : Option String := if a.bufOk then some (waitedBody wait) else none
  match http_response_new a.holderOk (some r.handle) buf with
  | some resp =>
      Ev.usleepCall (wrap32 (wait * 1000)) ::
        (if sleepRet = 0 then send_response_cb resp else [Ev.assertFail])
  | none => [Ev.assertFail]

/-- Is this event a send through a completion handle? -/
def isSend : Ev → Bool
  | Ev.sendReply _ _ _ => true
  | _ => false

/-- Is this event a call to `evhttp_request_free`? -/
def isReqFree : Ev → Bool
  | Ev.evhttpRequestFree => true
  | _ => false

/-- Is this event an `event_once` timer registration? -/
def isArm : Ev → Bool
  | Ev.armTimer _ _ => true
  | _ => false

/-- Number of sends in a trace. -/
def sendCount (tr : List Ev) : Nat := tr.countP isSend

/-- Number of `evhttp_request_free` calls in a trace. -/
def reqFreeCount (tr : List Ev) : Nat := tr.countP isReqFree

/-- The server-side state visible across requests: the holders of armed,
not yet fired, timers.  `null_response_cb` neither reads nor writes it;
this step function makes that explicit. -/
def null_step (a : Alloc) (r : Request) (pend : List http_response) :
    List Ev × List http_response :=
  (null_response_cb a r, pend)

/-- n repetitions of the same request to `/`, threading the server
state. -/
def null_repeat (a : Alloc) (r : Request) : Nat → List http_response → List http_response
  | 0, pend => pend
  | n + 1, pend => null_repeat a r n (null_step a r pend).2

/-- Valid integer lead-in: after optional whitespace and at most one
sign, the value starts with a decimal digit.  This is the condition
under which `atoi` finds a nonempty digit run. -/
def intLead (s : String) : Bool :=
  match s.data.dropWhile isSpaceC with
  | [] => false
  | c :: cs =>
    if c == '-' || c == '+' then
      match cs with
      | [] => false
      | d :: _ => isDigitC d
    else isDigitC c

theorem digitsLoop_not_digit (c : Char) (cs : List Char) (acc : Nat)
    (h : isDigitC c = false) : digitsLoop (c :: cs) acc = acc := by
  simp [digitsLoop, h]

theorem atoi_eq_zero_of_not_intLead (s : String) (h : intLead s = false) :
    atoi s = 0 := by
  rw [intLead] at h
  rw [atoi]
  cases hd : s.data.dropWhile isSpaceC with
  | nil => rfl
  | cons c cs =>
    rw [hd] at h
    by_cases hminus : c = '-'
    · subst hminus
      cases cs with
      | nil => simp [atoiAfterSpace, digitsLoop]
      | cons d ds =>
        simp only [beq_self_eq_true, Bool.true_or, if_true] at h
        simp [atoiAfterSpace, digitsLoop_not_digit d ds 0 h]
    · by_cases hplus : c = '+'
      · subst hplus
        cases cs with
        | nil => simp [atoiAfterSpace, digitsLoop]
        | cons d ds =>
          simp only [beq_self_eq_true, Bool.or_true, if_true] at h
          simp [atoiAfterSpace, hminus, digitsLoop_not_digit d ds 0 h]
      · have hcond : (c == '-' || c == '+') = false := by simp [hminus, hplus]
        simp only [hcond, Bool.false_eq_true, if_false] at h
        simp [atoiAfterSpace, hminus, hplus, digitsLoop_not_digit c cs 0 h]

theorem wrap32_eq_of_bounds (x : Int) (h1 : -2147483648 ≤ x)
    (h2 : x < 2147483648) : wrap32 x = x := by
  unfold wrap32
  rw [Int.emod_eq_of_lt (by omega) (by omega)]
  omega

theorem getLast?_elim_cons {α β : Type} (a : α) (l : List α) (b : β) (f : α → β) :
    ((a :: l).getLast?).elim b f = (l.getLast?).elim (f a) f := by
  cases l with
  | nil => rfl
  | cons c l =>
    rw [List.getLast?_cons_cons,
      List.getLast?_eq_getLast_of_ne_nil (List.cons_ne_nil c l)]
    rfl

theorem requested_delay_go_eq (ps : List (String × String)) :
    ∀ acc : Int, requested_delay_go acc ps =
      ((ps.filter fun p => delayKeyMatch p.1).getLast?).elim acc fun p => atoi p.2 := by
  induction ps with
  | nil => intro acc; rfl
  | cons p ps ih =>
    intro acc
    have hstep : requested_delay_go acc (p :: ps) =
        requested_delay_go (if delayKeyMatch p.1 then atoi p.2 else acc) ps := rfl
    rw [hstep, List.filter_cons]
    by_cases hm : delayKeyMatch p.1 = true
    · rw [if_pos hm, if_pos (by simpa using hm), getLast?_elim_cons]
      exact ih (atoi p.2)
    · rw [if_neg hm, if_neg (by simpa using hm)]
      exact ih acc

theorem requested_delay_eq_lastMatch (ps : List (String × String)) :
    requested_delay ps =
      ((ps.filter fun p => delayKeyMatch p.1).getLast?).elim 0 fun p => atoi p.2 :=
  requested_delay_go_eq ps 0

theorem natDecAux_ne_nil (fuel n : Nat) : natDecAux fuel n ≠ [] := by
  cases fuel with
  | zero => simp [natDecAux]
  | succ fuel =>
    by_cases h : n < 10
    · simp [natDecAux, h]
    · simp [natDecAux, h]

theorem digitChar_isDigit (n : Nat) : isDigitC (digitChar n) = true := by
  rcases n with _|_|_|_|_|_|_|_|_|n <;> rfl

theorem natDecAux_head_ne_zero (fuel : Nat) : ∀ n, 0 < n → n ≤ fuel →
    (natDecAux fuel n).head? ≠ some '0' := by
  induction fuel with
  | zero => intro n h1 h2; omega
  | succ fuel ih =>
    intro n h1 _h2
    by_cases h : n < 10
    · simp only [natDecAux, if_pos h, List.head?_cons]
      intro hc
      have hdc : digitChar n = '0' := by injection hc
      revert hdc
      interval_cases n <;> decide
    · simp only [natDecAux, if_neg h]
      cases hA : natDecAux fuel (n / 10) with
      | nil => exact absurd hA (natDecAux_ne_nil fuel (n / 10))
      | cons a as =>
        simp only [List.cons_append, List.head?_cons]
        have hrec := ih (n / 10) (by omega) (by omega)
        rw [hA] at hrec
        simpa using hrec

theorem natDecAux_all_digits (fuel : Nat) :
    ∀ n, ∀ c ∈ natDecAux fuel n, isDigitC c = true := by
  induction fuel with
  | zero =>
    intro n c hc
    simp only [natDecAux, List.mem_singleton] at hc
    subst hc
    exact digitChar_isDigit n
  | succ fuel ih =>
    intro n c hc
    by_cases h : n < 10
    · simp only [natDecAux, if_pos h, List.mem_singleton] at hc
      subst hc
      exact digitChar_isDigit n
    · simp only [natDecAux, if_neg h, List.mem_append, List.mem_singleton] at hc
      rcases hc with hc | hc
      · exact ih (n / 10) c hc
      · subst hc
        exact digitChar_isDigit _

theorem natDecL_ne_nil (n : Nat) : natDecL n ≠ [] := natDecAux_ne_nil n n

theorem natDecL_head_ne_zero (n : Nat) (h : 0 < n) : (natDecL n).head? ≠ some '0' :=
  natDecAux_head_ne_zero n n h (le_refl n)

/-- Decimal digit strings with no leading zeros: nonempty, all decimal
digits, and a leading '0' only in the one-digit string for zero. -/
def decimalNoLeadZeros (l : List Char) : Prop :=
  l ≠ [] ∧ (∀ c ∈ l, isDigitC c = true) ∧ (l.head? = some '0' → l = ['0'])

theorem natDecL_noLeadZeros (n : Nat) : decimalNoLeadZeros (natDecL n) := by
  refine ⟨natDecL_ne_nil n, fun c hc => natDecAux_all_digits n n c hc, ?_⟩
  intro h0
  cases n with
  | zero => rfl
  | succ n => exact absurd h0 (natDecL_head_ne_zero (n + 1) (Nat.succ_pos n))

theorem intToDec_nonneg (i : Int) (h : 0 ≤ i) :
    (intToDec i).data = natDecL i.toNat := by
  rw [intToDec, if_neg (by omega)]

theorem intToDec_neg (i : Int) (h : i < 0) :
    (intToDec i).data = '-' :: natDecL i.natAbs := by
  rw [intToDec, if_pos h]

theorem waitedBody_data (w : Int) :
    (waitedBody w).data = "Waited ".data ++ (intToDec w).data ++ " ms".data := by
  rw [waitedBody, String.data_append, String.data_append]

/-- C1 counterexample: at parsed delay d = 2147484 (≥ 0) the C `int`
product 1000 * d overflows 32 bits, and the timeval handed to
`event_once` holds tv_sec = 0, tv_usec = -2147483296, which does not
denote 2147484 milliseconds (= 2147484000 microseconds). -/
theorem delay_timer_exact_counterexample :
    requested_delay [("delay", "2147484")] = 2147484 ∧
    (0 : Int) ≤ 2147484 ∧
    (delayed_response_cb ⟨true, true⟩ ⟨"GET", [("delay", "2147484")], 1⟩).trace =
      [Ev.armTimer 0 (-2147483296)] ∧
    ¬ ((0 : Int) * 1000000 + -2147483296 = 2147484 * 1000) := by
  refine ⟨by decide, by decide, by decide, by decide⟩

/-- C1 amended: for every parsed delay d with 0 ≤ d ≤ 2147483 (so that
the 32-bit `int` product 1000 * d does not overflow), the non-blocking
delayed handler registers its one-shot timer with tv_sec = 0 and
tv_usec = 1000 * d, a timeval denoting exactly d milliseconds under
exact integer arithmetic; this includes all d ≥ 1000, where tv_usec
simply exceeds one million. -/
theorem delay_timer_exact_amended (a : Alloc) (r : Request) (d : Int)
    (hh : a.holderOk = true) (hd : requested_delay r.query = d)
    (h0 : 0 ≤ d) (h1 : d ≤ 2147483) :
    (delayed_response_cb a r).trace = [Ev.armTimer 0 (1000 * d)] ∧
    (0 : Int) * 1000000 + 1000 * d = d * 1000 := by
  have hw : wrap32 (1000 * d) = 1000 * d :=
    wrap32_eq_of_bounds (1000 * d) (by omega) (by omega)
  refine ⟨?_, by ring⟩
  simp [delayed_response_cb, http_response_new, hh, hd, hw]

/-- Witness for the amended C1 at the concrete delay 1500 ms. -/
theorem delay_timer_exact_amended_witness :
    (delayed_response_cb ⟨true, true⟩ ⟨"GET", [("delay", "1500")], 2⟩).trace =
      [Ev.armTimer 0 (1000 * 1500)] ∧
    (0 : Int) * 1000000 + 1000 * 1500 = 1500 * 1000 :=
  delay_timer_exact_amended ⟨true, true⟩ ⟨"GET", [("delay", "1500")], 2⟩ 1500 rfl
    (by decide) (by decide) (by decide)

/-- C3 counterexample: the key "delayed" is a string other than "delay",
yet with it as the only parameter the parser returns 7 instead of the
default 0, so that key determined the returned value: line 147 compares
only the first five characters. -/
theorem delay_key_exact_counterexample :
    requested_delay [("delayed", "7")] = 7 ∧ ¬ ((7 : Int) = 0) := by
  exact ⟨by decide, by decide⟩

/-- C3 amended: the parser selects parameters by the five-character
bounded comparison `strncmp(key, "delay", 5) == 0`, i.e. any key whose
first five characters are exactly "delay" (case-sensitively), which
includes longer keys such as "delayed" or "delays"; parameters failing
that test never determine the result: removing them all changes
nothing, and if every parameter fails it the result is 0. -/
theorem delay_key_match_amended (params : List (String × String)) :
    requested_delay params =
      requested_delay (params.filter fun p => delayKeyMatch p.1) ∧
    ((∀ p ∈ params, delayKeyMatch p.1 = false) → requested_delay params = 0) := by
  constructor
  · rw [requested_delay_eq_lastMatch, requested_delay_eq_lastMatch]
    have hff : ((params.filter fun p => delayKeyMatch p.1).filter
        fun p => delayKeyMatch p.1) = params.filter fun p => delayKeyMatch p.1 := by
      rw [List.filter_filter]
      simp
    rw [hff]
  · intro h
    rw [requested_delay_eq_lastMatch]
    have hnil : (params.filter fun p => delayKeyMatch p.1) = [] := by
      rw [List.filter_eq_nil_iff]
      intro a ha
      simp [h a ha]
    rw [hnil]
    rfl

/-- Witness for the amended C3: a query with no key passing the bounded
comparison yields 0. -/
theorem delay_key_match_amended_witness :
    requested_delay [("dolly", "7")] = 0 :=
  (delay_key_match_amended [("dolly", "7")]).2 (by decide)

/-- C4 counterexample: the query delay=10&delay=20&delayed=30 contains
multiple "delay" parameters whose last value is 20, but the parser
returns 30 — the later prefix-matching key "delayed" overwrote it. -/
theorem last_delay_wins_counterexample :
    requested_delay [("delay", "10"), ("delay", "20"), ("delayed", "30")] = 30 ∧
    ¬ ((30 : Int) = 20) := by
  exact ⟨by decide, by decide⟩

/-- C4 amended: the parser returns the parsed value of the last
parameter, in iteration order, whose key passes the five-character
bounded comparison (not only keys exactly equal to "delay"), and 0 when
there is none; in particular delay=10&delay=20 yields 20. -/
theorem last_match_wins_amended (params : List (String × String)) :
    requested_delay params =
      ((params.filter fun p => delayKeyMatch p.1).getLast?).elim 0
        (fun p => atoi p.2) ∧
    requested_delay [("delay", "10"), ("delay", "20")] = 20 :=
  ⟨requested_delay_eq_lastMatch params, by decide⟩

/-- C5 counterexample: the query delays=9 has no parameter named
"delay" at all, yet the parser returns 9, not 0. -/
theorem absent_delay_zero_counterexample :
    requested_delay [("delays", "9")] = 9 ∧ ¬ ((9 : Int) = 0) := by
  exact ⟨by decide, by decide⟩

/-- C5 amended: the parser is total and never errors: on every parameter
list its result is either 0 or the `atoi` of the value of some parameter
whose key passes the five-character bounded comparison; when no key
passes the comparison the result is 0, and when the last passing value
does not lead with a valid base-10 integer (optional whitespace, at most
one sign, then a digit) the result is 0 as well. -/
theorem parser_total_default_zero (params : List (String × String)) :
    (requested_delay params = 0 ∨
      ∃ p, p ∈ params ∧ delayKeyMatch p.1 = true ∧
        requested_delay params = atoi p.2) ∧
    ((params.filter fun p => delayKeyMatch p.1) = [] →
      requested_delay params = 0) ∧
    (∀ q : String × String,
      (params.filter fun p => delayKeyMatch p.1).getLast? = some q →
      intLead q.2 = false → requested_delay params = 0) := by
  refine ⟨?_, ?_, ?_⟩
  · rw [requested_delay_eq_lastMatch]
    cases hlast : (params.filter fun p => delayKeyMatch p.1).getLast? with
    | none => exact Or.inl rfl
    | some q =>
      right
      have hmem : q ∈ params.filter fun p => delayKeyMatch p.1 := by
        obtain ⟨hne, hx⟩ :=
          List.mem_getLast?_eq_getLast (Option.mem_def.mpr hlast)
        rw [hx]
        exact List.getLast_mem hne
      obtain ⟨hq, hm⟩ := List.mem_filter.mp hmem
      exact ⟨q, hq, hm, rfl⟩
  · intro hnil
    rw [requested_delay_eq_lastMatch, hnil]
    rfl
  · intro q hlast hbad
    rw [requested_delay_eq_lastMatch, hlast]
    exact atoi_eq_zero_of_not_intLead q.2 hbad

/-- Witness for the amended C5: a "delay" parameter whose value has no
integer lead parses to 0. -/
theorem parser_total_default_zero_witness :
    requested_delay [("delay", "xyz")] = 0 :=
  (parser_total_default_zero [("delay", "xyz")]).2.2 ("delay", "xyz")
    (by decide) (by decide)

/-- C2: for requests handled by each of the three handlers (with
allocations succeeding and, for the blocking variant, the sleep
returning 0), the lifecycle sends through the request's completion
handle exactly once; the holder is destroyed immediately after the
send, with the buffer freed and the struct freed together with it; and
the post-send release path performs no `evhttp_request_free` at all —
`send_response_cb` nulls the request field before calling
`http_response_free`, so the already-sent request is never freed again
and the completion handle is never used twice. -/
theorem single_send_holder_release (a : Alloc) (r : Request)
    (hb : a.bufOk = true) (hh : a.holderOk = true) :
    null_response_cb a r =
      [Ev.sendReply (some r.handle) 200 (some "OK"), Ev.evbufferFree] ∧
    delayed_lifecycle a r =
      [Ev.armTimer 0 (wrap32 (1000 * requested_delay r.query)),
       Ev.sendReply (some r.handle) 200 (some (waitedBody (requested_delay r.query))),
       Ev.evbufferFree, Ev.holderFree] ∧
    blocking_response_cb a 0 r =
      [Ev.usleepCall (wrap32 (requested_delay r.query * 1000)),
       Ev.sendReply (some r.handle) 200 (some (waitedBody (requested_delay r.query))),
       Ev.evbufferFree, Ev.holderFree] ∧
    sendCount (null_response_cb a r) = 1 ∧
    sendCount (delayed_lifecycle a r) = 1 ∧
    sendCount (blocking_response_cb a 0 r) = 1 ∧
    reqFreeCount (null_response_cb a r) = 0 ∧
    reqFreeCount (delayed_lifecycle a r) = 0 ∧
    reqFreeCount (blocking_response_cb a 0 r) = 0 := by
  refine ⟨?_, ?_, ?_, ?_, ?_, ?_, ?_, ?_, ?_⟩ <;>
    simp [null_response_cb, delayed_lifecycle, delayed_response_cb,
      blocking_response_cb, send_response_cb, http_response_free,
      http_response_new, sendCount, reqFreeCount, isSend, isReqFree,
      List.countP_cons, List.countP_nil, hb, hh]

/-- Witness for C2 at a concrete request with delay 5. -/
theorem single_send_holder_release_witness :
    null_response_cb ⟨true, true⟩ ⟨"GET", [("delay", "5")], 3⟩ =
      [Ev.sendReply (some 3) 200 (some "OK"), Ev.evbufferFree] ∧
    delayed_lifecycle ⟨true, true⟩ ⟨"GET", [("delay", "5")], 3⟩ =
      [Ev.armTimer 0 (wrap32 (1000 * requested_delay [("delay", "5")])),
       Ev.sendReply (some 3) 200 (some (waitedBody (requested_delay [("delay", "5")]))),
       Ev.evbufferFree, Ev.holderFree] ∧
    blocking_response_cb ⟨true, true⟩ 0 ⟨"GET", [("delay", "5")], 3⟩ =
      [Ev.usleepCall (wrap32 (requested_delay [("delay", "5")] * 1000)),
       Ev.sendReply (some 3) 200 (some (waitedBody (requested_delay [("delay", "5")]))),
       Ev.evbufferFree, Ev.holderFree] ∧
    sendCount (null_response_cb ⟨true, true⟩ ⟨"GET", [("delay", "5")], 3⟩) = 1 ∧
    sendCount (delayed_lifecycle ⟨true, true⟩ ⟨"GET", [("delay", "5")], 3⟩) = 1 ∧
    sendCount (blocking_response_cb ⟨true, true⟩ 0 ⟨"GET", [("delay", "5")], 3⟩) = 1 ∧
    reqFreeCount (null_response_cb ⟨true, true⟩ ⟨"GET", [("delay", "5")], 3⟩) = 0 ∧
    reqFreeCount (delayed_lifecycle ⟨true, true⟩ ⟨"GET", [("delay", "5")], 3⟩) = 0 ∧
    reqFreeCount (blocking_response_cb ⟨true, true⟩ 0 ⟨"GET", [("delay", "5")], 3⟩) = 0 :=
  single_send_holder_release ⟨true, true⟩ ⟨"GET", [("delay", "5")], 3⟩ rfl rfl

/-- C6: with d the parsed delay, both delayed handlers deliver status
200 with body exactly "Waited " ++ decimal(d) ++ " ms", where the
decimal rendering of a nonnegative d consists of digits with no leading
zero, and a negative d is rendered as a minus sign followed by such a
digit string. -/
theorem waited_body_format (a : Alloc) (r : Request) (d : Int)
    (hb : a.bufOk = true) (hh : a.holderOk = true)
    (hd : requested_delay r.query = d) :
    Ev.sendReply (some r.handle) 200 (some ("Waited " ++ intToDec d ++ " ms")) ∈
      delayed_lifecycle a r ∧
    Ev.sendReply (some r.handle) 200 (some ("Waited " ++ intToDec d ++ " ms")) ∈
      blocking_response_cb a 0 r ∧
    (0 ≤ d → decimalNoLeadZeros (intToDec d).data) ∧
    (d < 0 → (intToDec d).data = '-' :: natDecL d.natAbs ∧
      decimalNoLeadZeros (natDecL d.natAbs)) := by
  refine ⟨?_, ?_, ?_, ?_⟩
  · simp [delayed_lifecycle, delayed_response_cb, send_response_cb,
      http_response_free, http_response_new, waitedBody, hb, hh, hd]
  · simp [blocking_response_cb, send_response_cb, http_response_free,
      http_response_new, waitedBody, hb, hh, hd]
  · intro h0
    rw [intToDec_nonneg d h0]
    exact natDecL_noLeadZeros d.toNat
  · intro hneg
    exact ⟨intToDec_neg d hneg, natDecL_noLeadZeros d.natAbs⟩

/-- Witness for C6 at the concrete delay 250. -/
theorem waited_body_format_witness :
    Ev.sendReply (some 4) 200 (some ("Waited " ++ intToDec 250 ++ " ms")) ∈
      delayed_lifecycle ⟨true, true⟩ ⟨"GET", [("delay", "250")], 4⟩ ∧
    Ev.sendReply (some 4) 200 (some ("Waited " ++ intToDec 250 ++ " ms")) ∈
      blocking_response_cb ⟨true, true⟩ 0 ⟨"GET", [("delay", "250")], 4⟩ ∧
    ((0 : Int) ≤ 250 → decimalNoLeadZeros (intToDec 250).data) ∧
    ((250 : Int) < 0 → (intToDec 250).data = '-' :: natDecL (250 : Int).natAbs ∧
      decimalNoLeadZeros (natDecL (250 : Int).natAbs)) :=
  waited_body_format ⟨true, true⟩ ⟨"GET", [("delay", "250")], 4⟩ 250 rfl rfl (by decide)

/-- C7: the immediate handler sends status 200 with body exactly "OK"
for every request it receives, regardless of method or query string;
its trace arms no timer; it neither reads nor writes the pending-timer
state, so any number of repetitions leaves that state unchanged; and
two requests differing only in method and query get identical
responses. -/
theorem null_handler_ok (a : Alloc) (r r2 : Request)
    (pend : List http_response) (hb : a.bufOk = true) :
    null_response_cb a r =
      [Ev.sendReply (some r.handle) 200 (some "OK"), Ev.evbufferFree] ∧
    (∀ e ∈ null_response_cb a r, isArm e = false) ∧
    null_step a r pend = (null_response_cb a r, pend) ∧
    (∀ n, null_repeat a r n pend = pend) ∧
    (r.handle = r2.handle → null_response_cb a r = null_response_cb a r2) := by
  refine ⟨?_, ?_, rfl, ?_, ?_⟩
  · simp [null_response_cb, hb]
  · intro e he
    simp only [null_response_cb, List.mem_cons, List.mem_singleton,
      List.not_mem_nil, or_false] at he
    rcases he with he | he <;> subst he <;> rfl
  · intro n
    induction n with
    | zero => rfl
    | succ n ih => exact ih
  · intro hh2
    simp [null_response_cb, hh2]

/-- Witness for C7 at two concrete requests sharing a handle. -/
theorem null_handler_ok_witness :
    null_response_cb ⟨true, true⟩ ⟨"GET", [], 9⟩ =
      [Ev.sendReply (some 9) 200 (some "OK"), Ev.evbufferFree] ∧
    (∀ e ∈ null_response_cb ⟨true, true⟩ ⟨"GET", [], 9⟩, isArm e = false) ∧
    null_step ⟨true, true⟩ ⟨"GET", [], 9⟩ [] =
      (null_response_cb ⟨true, true⟩ ⟨"GET", [], 9⟩, []) ∧
    (∀ n, null_repeat ⟨true, true⟩ ⟨"GET", [], 9⟩ n [] = []) ∧
    ((⟨"GET", [], 9⟩ : Request).handle =
        (⟨"POST", [("delay", "3")], 9⟩ : Request).handle →
      null_response_cb ⟨true, true⟩ ⟨"GET", [], 9⟩ =
        null_response_cb ⟨true, true⟩ ⟨"POST", [("delay", "3")], 9⟩) :=
  null_handler_ok ⟨true, true⟩ ⟨"GET", [], 9⟩ ⟨"POST", [("delay", "3")], 9⟩ [] rfl

/-- C8: in the blocking handler, when `usleep` returns nonzero the
`assert` on line 200 aborts the process and no response is ever sent;
when it returns 0 the handler sends the 200 response and releases the
holder. -/
theorem blocking_sleep_assert (a : Alloc) (r : Request) (ret : Int)
    (hb : a.bufOk = true) (hh : a.holderOk = true) :
    (ret ≠ 0 → blocking_response_cb a ret r =
        [Ev.usleepCall (wrap32 (requested_delay r.query * 1000)), Ev.assertFail] ∧
      sendCount (blocking_response_cb a ret r) = 0) ∧
    (ret = 0 → blocking_response_cb a ret r =
        [Ev.usleepCall (wrap32 (requested_delay r.query * 1000)),
         Ev.sendReply (some r.handle) 200 (some (waitedBody (requested_delay r.query))),
         Ev.evbufferFree, Ev.holderFree] ∧
      sendCount (blocking_response_cb a ret r) = 1) := by
  constructor
  · intro hret
    constructor <;>
      simp [blocking_response_cb, http_response_new, send_response_cb,
        http_response_free, sendCount, isSend, List.countP_cons,
        List.countP_nil, hb, hh, hret]
  · intro hret
    subst hret
    constructor <;>
      simp [blocking_response_cb, http_response_new, send_response_cb,
        http_response_free, sendCount, isSend, List.countP_cons,
        List.countP_nil, hb, hh]

/-- Witness for C8 with an interrupted sleep (return value 1). -/
theorem blocking_sleep_assert_witness :
    blocking_response_cb ⟨true, true⟩ 1 ⟨"GET", [("delay", "40")], 6⟩ =
      [Ev.usleepCall (wrap32 (requested_delay [("delay", "40")] * 1000)),
       Ev.assertFail] ∧
    sendCount (blocking_response_cb ⟨true, true⟩ 1 ⟨"GET", [("delay", "40")], 6⟩) = 0 :=
  (blocking_sleep_assert ⟨true, true⟩ ⟨"GET", [("delay", "40")], 6⟩ 1 rfl rfl).1
    (by decide)

/-- C9 counterexample: when `evbuffer_new` fails and the holder malloc
succeeds, the delayed lifecycle aborts nowhere: execution continues past
the failed buffer allocation (the source never checks `evbuffer_new`),
and a response is still sent — with a NULL body buffer. -/
theorem alloc_assert_counterexample :
    delayed_lifecycle ⟨false, true⟩ ⟨"GET", [], 1⟩ =
      [Ev.armTimer 0 0, Ev.sendReply (some 1) 200 none, Ev.holderFree] ∧
    Ev.assertFail ∉ delayed_lifecycle ⟨false, true⟩ ⟨"GET", [], 1⟩ ∧
    sendCount (delayed_lifecycle ⟨false, true⟩ ⟨"GET", [], 1⟩) = 1 := by
  refine ⟨by decide, by decide, by decide⟩

/-- C9 amended: only the Pending Response Holder allocation is guarded
by an assert: if the malloc inside `http_response_new` fails, both
deferred handlers abort before any response is sent.  A failed body
buffer allocation is not checked: the NULL buffer propagates into the
holder and the send (the abort there, if any, would come from the
library dereferencing the NULL buffer, not from the program). -/
theorem alloc_assert_amended (a : Alloc) (r : Request) (ret : Int)
    (hh : a.holderOk = false) :
    delayed_lifecycle a r = [Ev.assertFail] ∧
    blocking_response_cb a ret r = [Ev.assertFail] ∧
    sendCount (delayed_lifecycle a r) = 0 ∧
    sendCount (blocking_response_cb a ret r) = 0 := by
  refine ⟨?_, ?_, ?_, ?_⟩ <;>
    simp [delayed_lifecycle, delayed_response_cb, blocking_response_cb,
      http_response_new, sendCount, isSend, List.countP_cons,
      List.countP_nil, hh]

/-- Witness for the amended C9 with a failed holder malloc. -/
theorem alloc_assert_amended_witness :
    delayed_lifecycle ⟨true, false⟩ ⟨"GET", [], 5⟩ = [Ev.assertFail] ∧
    blocking_response_cb ⟨true, false⟩ 0 ⟨"GET", [], 5⟩ = [Ev.assertFail] ∧
    sendCount (delayed_lifecycle ⟨true, false⟩ ⟨"GET", [], 5⟩) = 0 ∧
    sendCount (blocking_response_cb ⟨true, false⟩ 0 ⟨"GET", [], 5⟩) = 0 :=
  alloc_assert_amended ⟨true, false⟩ ⟨"GET", [], 5⟩ 0 rfl

/-- C10 counterexample: at parsed delay d = -3000000 the C `int`
product 1000 * d wraps to +1294967296, so the non-blocking handler does
not arm its timer from the negative product. -/
theorem negative_delay_counterexample :
    requested_delay [("delay", "-3000000")] = -3000000 ∧
    (delayed_response_cb ⟨true, true⟩ ⟨"GET", [("delay", "-3000000")], 1⟩).trace =
      [Ev.armTimer 0 1294967296] ∧
    ¬ ((1294967296 : Int) = 1000 * (-3000000)) ∧
    (0 : Int) < 1294967296 := by
  refine ⟨by decide, by decide, by decide, by decide⟩

/-- C10 amended: no component clamps a negative parsed delay d to 0:
`requested_delay` returns d itself, the body reads "Waited -… ms" with
a minus sign in the number, and — provided -2147483 ≤ d so the 32-bit
product does not wrap — the timer is armed from the negative product
1000 * d and the blocking sleep receives the negative product
unmodified. -/
theorem negative_delay_amended (a : Alloc) (r : Request) (d : Int)
    (hb : a.bufOk = true) (hh : a.holderOk = true)
    (hd : requested_delay r.query = d) (hneg : d < 0) (hlo : -2147483 ≤ d) :
    requested_delay r.query = d ∧
    (waitedBody d).data = "Waited -".data ++ natDecL d.natAbs ++ " ms".data ∧
    (delayed_response_cb a r).trace = [Ev.armTimer 0 (1000 * d)] ∧
    1000 * d < 0 ∧
    blocking_response_cb a 0 r =
      [Ev.usleepCall (d * 1000),
       Ev.sendReply (some r.handle) 200 (some (waitedBody d)),
       Ev.evbufferFree, Ev.holderFree] := by
  have hw1 : wrap32 (1000 * d) = 1000 * d :=
    wrap32_eq_of_bounds (1000 * d) (by omega) (by omega)
  have hw2 : wrap32 (d * 1000) = d * 1000 :=
    wrap32_eq_of_bounds (d * 1000) (by omega) (by omega)
  refine ⟨hd, ?_, ?_, by omega, ?_⟩
  · rw [waitedBody_data, intToDec_neg d hneg]
    simp
  · simp [delayed_response_cb, http_response_new, hh, hd, hw1]
  · simp [blocking_response_cb, http_response_new, send_response_cb,
      http_response_free, hb, hh, hd, hw2]

/-- Witness for the amended C10 at the concrete delay -5. -/
theorem negative_delay_amended_witness :
    requested_delay [("delay", "-5")] = -5 ∧
    (waitedBody (-5)).data = "Waited -".data ++ natDecL (-5 : Int).natAbs ++ " ms".data ∧
    (delayed_response_cb ⟨true, true⟩ ⟨"GET", [("delay", "-5")], 8⟩).trace =
      [Ev.armTimer 0 (1000 * (-5))] ∧
    (1000 : Int) * (-5) < 0 ∧
    blocking_response_cb ⟨true, true⟩ 0 ⟨"GET", [("delay", "-5")], 8⟩ =
      [Ev.usleepCall ((-5) * 1000),
       Ev.sendReply (some 8) 200 (some (waitedBody (-5))),
       Ev.evbufferFree, Ev.holderFree] :=
  negative_delay_amended ⟨true, true⟩ ⟨"GET", [("delay", "-5")], 8⟩ (-5) rfl rfl
    (by decide) (by decide) (by decide)
